import Mathlib

/-!
Shallow embedding of `src/streamlit_app.py` (rafi79/coqui-ai), a Streamlit
front end for the Coqui TTS library.  External effects (the TTS library,
the filesystem, the Streamlit widgets) are made explicit:

* the TTS library's enumeration / load / synthesis calls are parameters of
  type `Except String _` (an `Except.error e` models the Python call
  raising an exception with message `e`);
* the pool of temporary files is an explicit `FS` state threaded through
  the handlers (`tempfile.NamedTemporaryFile(delete=False)` draws a fresh
  name, `os.unlink` removes one);
* `st.error` messages, the arguments actually handed to the library, and
  the produced markup are recorded in explicit outcome records.
-/

/-- `startsWith needle hay`: `needle` is a prefix of `hay` (on char lists). -/
def startsWith : List Char → List Char → Bool
  | [], _ => true
  | _ :: _, [] => false
  | n :: ns, h :: hs => n = h && startsWith ns hs

/-- `subList needle hay`: `needle` occurs contiguously inside `hay`. -/
def subList : List Char → List Char → Bool
  | needle, [] => needle.isEmpty
  | needle, h :: hs => startsWith needle (h :: hs) || subList needle hs

/-- Python's `needle in hay` on strings: substring containment. -/
def strContains (hay needle : String) : Bool :=
  subList needle.toList hay.toList

/-- Result record of `get_available_models` (`src/streamlit_app.py:25-42`). -/
structure ModelLists where
  single_speaker : List String
  voice_cloning : List String
deriving DecidableEq

/-- The classification of `get_available_models` applied to the identifier
list returned by `TTS().list_models()` (`src/streamlit_app.py:30-34`). -/
def classify_models (all_models : List String) : ModelLists where
  single_speaker := all_models.filter fun model =>
    strContains model "tts_models" &&
      !(["your_tts", "xtts"].any fun x => strContains model x)
  voice_cloning := all_models.filter fun model =>
    strContains model "tts_models" &&
      (["your_tts", "xtts", "multi-dataset"].any fun x => strContains model x)

/-- `get_available_models` (`src/streamlit_app.py:25-42`).  The argument is
the outcome of the library's `TTS().list_models()` call; `Except.error e`
models that call raising.  Returns the two lists together with the list of
`st.error` messages shown. -/
def get_available_models (catalog : Except String (List String)) :
    ModelLists × List String :=
  match catalog with
  | Except.ok all_models => (classify_models all_models, [])
  | Except.error e =>
      ({ single_speaker := [], voice_cloning := [] },
       ["Error getting models: " ++ e])

/-! ## The `@st.cache_resource` model cache (`src/streamlit_app.py:17-23`)

`st.cache_resource` memoises the *returned value* of `load_tts_model` by
argument; an entry is stored whenever the function returns normally.  Since
`load_tts_model` catches the load exception internally and returns `None`,
a normal return — hence a cache entry — happens on failure too.  A loaded
handle is an opaque `Nat`; the loader oracle models `TTS(model_name).to(device)`. -/

/-- Association-list lookup used to model the `st.cache_resource` store. -/
def cacheLookup : List (String × Option Nat) → String → Option (Option Nat)
  | [], _ => none
  | (k, v) :: rest, name => if k = name then some v else cacheLookup rest name

/-- Observable outcome of one `load_tts_model(model_name)` call. -/
structure LoadCall where
  result : Option Nat
  errors : List String
  loadsAttempted : Nat
deriving DecidableEq

/-- One call of the cached `load_tts_model` (`src/streamlit_app.py:17-23`):
on a cache hit the stored value is returned and the body (hence the
library load) does not run; on a miss the body runs once — `TTS(...)`
succeeding yields the handle, raising is caught, `st.error` is shown and
`None` is returned — and the returned value is stored in the cache. -/
def load_tts_model (loader : String → Except String Nat)
    (cache : List (String × Option Nat)) (model_name : String) :
    LoadCall × List (String × Option Nat) :=
  match cacheLookup cache model_name with
  | some v => ({ result := v, errors := [], loadsAttempted := 0 }, cache)
  | none =>
      match loader model_name with
      | Except.ok h =>
          ({ result := some h, errors := [], loadsAttempted := 1 },
           (model_name, some h) :: cache)
      | Except.error e =>
          ({ result := none, errors := ["Error loading model: " ++ e],
             loadsAttempted := 1 },
           (model_name, none) :: cache)

/-! ## Temporary files -/

/-- The temp-file pool: `next` is the next fresh name `tempfile` hands out,
`files` the names currently on disk. -/
structure FS where
  next : Nat
  files : List Nat
deriving DecidableEq

/-- `tempfile.NamedTemporaryFile(delete=False)`: creates a fresh file and
returns its name. -/
def mkTemp (fs : FS) : Nat × FS :=
  (fs.next, ⟨fs.next + 1, fs.next :: fs.files⟩)

/-- `os.unlink(n)`: removes the file named `n`. -/
def unlink (fs : FS) (n : Nat) : FS :=
  ⟨fs.next, fs.files.filter fun m => m ≠ n⟩

/-! ## Speaker probing (pre-trained mode, `src/streamlit_app.py:97-105`) -/

/-- The `speakers` value after the probe: `none` models a model without a
`speakers` attribute (or the probe raising, swallowed by `except: pass`);
`some l` a model exposing the list `l`.  Python's truthiness test
`tts_model.speakers` keeps only a non-empty list. -/
def probeSpeakers (modelSpeakers : Option (List String)) : List String :=
  match modelSpeakers with
  | some l => if l.isEmpty then [] else l
  | none => []

/-- Observable outcome of one pre-trained "Generate Speech" click. -/
structure PreOutcome where
  errors : List String
  audio : Option (List Nat)
  libCalled : Bool
  libSpeaker : Option String
  createdTemp : Option Nat
deriving DecidableEq

/-- The pre-trained-mode "Generate Speech" handler
(`src/streamlit_app.py:110-137`).  `lib` is the outcome of
`tts_model.tts_to_file(...)` writing the wav bytes (`Except.error e`
models it raising).  A temp file is created, the library is called —
with `speaker=speaker_idx` exactly when `speakers and speaker_idx` is
truthy (non-empty list and non-empty string) — then on success the bytes
are read back and the temp file unlinked; the `except` branch shows
`st.error` and performs no unlink. -/
def pretrainedClick (fs : FS) (speakers : List String) (speaker_idx : String)
    (text_input : String) (lib : Except String (List Nat)) :
    PreOutcome × FS :=
  let p := mkTemp fs
  let temp_filename := p.1
  let fs1 := p.2
  let speakerArg : Option String :=
    if speakers ≠ [] ∧ speaker_idx ≠ "" then some speaker_idx else none
  match lib with
  | Except.ok bytes =>
      ({ errors := [], audio := some bytes, libCalled := true,
         libSpeaker := speakerArg, createdTemp := some temp_filename },
       unlink fs1 temp_filename)
  | Except.error e =>
      ({ errors := ["Error generating speech: " ++ e], audio := none,
         libCalled := true, libSpeaker := speakerArg,
         createdTemp := some temp_filename },
       fs1)

/-- The fixed language list of cloning mode (`src/streamlit_app.py:141`). -/
def languages : List String :=
  ["en", "es", "fr", "de", "it", "pt", "pl", "tr", "ru", "nl", "cs", "ar",
   "zh-cn", "ja"]

/-- `st.selectbox`: the user's choice is always one of the offered options. -/
def selectbox (options : List String) (choice : Fin options.length) : String :=
  options.get choice

/-- Python's `str.lower()` on one ASCII character. -/
def lowerChar (c : Char) : Char :=
  if 'A' ≤ c ∧ c ≤ 'Z' then Char.ofNat (c.toNat + 32) else c

/-- Python's `str.lower()` (ASCII fragment, enough for "Male"/"Female"). -/
def lowerString (s : String) : String :=
  String.mk (s.toList.map lowerChar)

/-- Observable outcome of one cloning-mode "Generate Speech" click. -/
structure CloneOutcome where
  errors : List String
  audio : Option (List Nat)
  libCalled : Bool
  libLanguage : Option String
  libSpeakerWav : Option Nat
  createdTemp : Option Nat
deriving DecidableEq

/-- The cloning-mode "Generate Speech" handler
(`src/streamlit_app.py:187-222`).  `male_sample_path` / `female_sample_path`
are the temp files the two upload slots wrote (`none` = nothing uploaded);
the selected one is `voice_sample_path`.  If it is absent, `st.error`
shows "Please upload a … voice sample first" and nothing else happens.
Otherwise a temp output file is created and
`tts_to_file(text=…, file_path=…, speaker_wav=…, language=…)` is called
with `selected_language` unchecked; on success the bytes are read back and
both the output file and the selected sample are unlinked; the `except`
branch shows `st.error` and performs no unlink. -/
def cloneClick (fs : FS) (male_sample_path female_sample_path : Option Nat)
    (voice_type : String) (text_input : String) (selected_language : String)
    (lib : Except String (List Nat)) : CloneOutcome × FS :=
  let voice_sample_path :=
    if voice_type = "Male" then male_sample_path else female_sample_path
  match voice_sample_path with
  | some samplePath =>
      let p := mkTemp fs
      let temp_filename := p.1
      let fs1 := p.2
      match lib with
      | Except.ok bytes =>
          ({ errors := [], audio := some bytes, libCalled := true,
             libLanguage := some selected_language,
             libSpeakerWav := some samplePath,
             createdTemp := some temp_filename },
           unlink (unlink fs1 temp_filename) samplePath)
      | Except.error e =>
          ({ errors := ["Error generating speech: " ++ e], audio := none,
             libCalled := true, libLanguage := some selected_language,
             libSpeakerWav := some samplePath,
             createdTemp := some temp_filename },
           fs1)
  | none =>
      ({ errors := ["Please upload a " ++ lowerString voice_type ++
           " voice sample first"],
         audio := none, libCalled := false, libLanguage := none,
         libSpeakerWav := none, createdTemp := none },
       fs)

/-! ## The Transfer Layer: base64 and the two markups
(`src/streamlit_app.py:44-77`) -/

/-- The standard base64 alphabet used by Python's `base64.b64encode`. -/
def b64Chars : List Char :=
  "ABCDEFGHIJKLMNOPQRSTUVWXYZabcdefghijklmnopqrstuvwxyz0123456789+/".toList

/-- The character encoding one 6-bit group. -/
def b64Char (n : Nat) : Char :=
  b64Chars.getD n 'A'

/-- Index of a character in the base64 alphabet. -/
def b64Index (ch : Char) : Option Nat :=
  b64Chars.findIdx? fun c => c = ch

/-- `base64.b64encode` on a byte sequence (bytes as naturals `< 256`),
producing the padded base64 character sequence. -/
def base64Encode : List Nat → List Char
  | a :: b :: c :: rest =>
      b64Char (a / 4) :: b64Char (a % 4 * 16 + b / 16) ::
        b64Char (b % 16 * 4 + c / 64) :: b64Char (c % 64) :: base64Encode rest
  | [a, b] =>
      [b64Char (a / 4), b64Char (a % 4 * 16 + b / 16), b64Char (b % 16 * 4), '=']
  | [a] => [b64Char (a / 4), b64Char (a % 4 * 16), '=', '=']
  | [] => []

/-- Standard base64 decoding, inverse of `base64Encode`; `none` on
malformed input. -/
def base64Decode : List Char → Option (List Nat)
  | c1 :: c2 :: c3 :: c4 :: rest =>
      if c3 = '=' then
        if c4 = '=' ∧ rest = [] then
          (b64Index c1).bind fun s1 =>
            (b64Index c2).bind fun s2 =>
              some [s1 * 4 + s2 / 16]
        else none
      else if c4 = '=' then
        if rest = [] then
          (b64Index c1).bind fun s1 =>
            (b64Index c2).bind fun s2 =>
              (b64Index c3).bind fun s3 =>
                some [s1 * 4 + s2 / 16, s2 % 16 * 16 + s3 / 4]
        else none
      else
        (b64Index c1).bind fun s1 =>
          (b64Index c2).bind fun s2 =>
            (b64Index c3).bind fun s3 =>
              (b64Index c4).bind fun s4 =>
                (base64Decode rest).bind fun bs =>
                  some ((s1 * 4 + s2 / 16) :: (s2 % 16 * 16 + s3 / 4) ::
                    (s3 % 4 * 64 + s4) :: bs)
  | [] => some []
  | _ => none

/-- `autoplay_audio` (`src/streamlit_app.py:44-51`): the markup handed to
`st.markdown`, embedding the base64 encoding of the audio bytes inside an
auto-playing audio element. -/
def autoplay_audio (audio_data : List Nat) : String :=
  "\n        <audio autoplay controls>\n        <source src=\"data:audio/wav;base64,"
    ++ String.mk (base64Encode audio_data)
    ++ "\" type=\"audio/wav\">\n        </audio>\n    "

/-- The `custom_css` block of `get_binary_file_downloader_html`
(`src/streamlit_app.py:56-75`). -/
def downloader_custom_css (button_uuid : String) : String :=
  "\n        <style>\n            #" ++ button_uuid ++ " \x7b\n" ++
    "                background-color: rgb(255, 255, 255);\n" ++
    "                color: rgb(38, 39, 48);\n" ++
    "                padding: 0.5em 0.7em;\n" ++
    "                position: relative;\n" ++
    "                text-decoration: none;\n" ++
    "                border-radius: 4px;\n" ++
    "                border-width: 1px;\n" ++
    "                border-style: solid;\n" ++
    "                border-color: rgb(230, 234, 241);\n" ++
    "                border-image: initial;\n            \x7d\n" ++
    "            #" ++ button_uuid ++ ":hover \x7b\n" ++
    "                border-color: rgb(246, 51, 102);\n" ++
    "                color: rgb(246, 51, 102);\n            \x7d\n" ++
    "        </style>\n    "

/-- `get_binary_file_downloader_html` (`src/streamlit_app.py:53-77`): the
css block plus a download anchor whose `href` embeds the base64 encoding
of the bytes. -/
def get_binary_file_downloader_html (bin_data : List Nat)
    (file_label : String) : String :=
  let button_uuid := "download_button_" ++ file_label
  downloader_custom_css button_uuid
    ++ "<a href=\"data:application/octet-stream;base64,"
    ++ String.mk (base64Encode bin_data)
    ++ "\" download=\"" ++ file_label ++ "\" id=\"" ++ button_uuid
    ++ "\">Download " ++ file_label ++ "</a><br></br>"

/-! ## Helper lemmas -/

/-- A cache hit returns the stored value unchanged and attempts no load. -/
theorem load_tts_model_hit (loader : String → Except String Nat)
    (cache : List (String × Option Nat)) (d : String) (v : Option Nat)
    (h : cacheLookup cache d = some v) :
    load_tts_model loader cache d =
      ({ result := v, errors := [], loadsAttempted := 0 }, cache) := by
  unfold load_tts_model
  rw [h]

/-- After any `load_tts_model` call, the cache answers for its argument
with exactly the value that call returned. -/
theorem load_tts_model_cached (loader : String → Except String Nat)
    (cache : List (String × Option Nat)) (d : String) :
    cacheLookup (load_tts_model loader cache d).2 d =
      some (load_tts_model loader cache d).1.result := by
  unfold load_tts_model
  cases h : cacheLookup cache d with
  | some v => simp [h]
  | none =>
      cases hl : loader d with
      | ok hh => simp [h, hl, cacheLookup]
      | error e => simp [h, hl, cacheLookup]

/-! ## Claims -/

/-- C1, counterexample: `"tts_models/en/multi-dataset/tortoise-v2"` (a real
Coqui identifier) contains the catalog marker `"multi-dataset"` but neither
`"your_tts"` nor `"xtts"`, so `get_available_models` places it in *both*
returned lists: the two lists are not disjoint and a marker-bearing
identifier does appear in `single_speaker`. -/
theorem C1_counterexample :
    "tts_models/en/multi-dataset/tortoise-v2" ∈
      (get_available_models
        (Except.ok ["tts_models/en/multi-dataset/tortoise-v2"])).1.single_speaker ∧
    "tts_models/en/multi-dataset/tortoise-v2" ∈
      (get_available_models
        (Except.ok ["tts_models/en/multi-dataset/tortoise-v2"])).1.voice_cloning := by
  decide

/-- C1, amended: a catalog identifier containing `"tts_models"` together
with the marker `"your_tts"` or `"xtts"` is placed in `voice_cloning` and
never in `single_speaker`; identifiers whose only marker is
`"multi-dataset"` are placed in both lists, so full disjointness fails
(see the counterexample). -/
theorem C1_marker_exclusivity (all_models : List String) (m : String)
    (hmem : m ∈ all_models)
    (hns : strContains m "tts_models" = true)
    (hmark : strContains m "your_tts" = true ∨ strContains m "xtts" = true) :
    m ∈ (get_available_models (Except.ok all_models)).1.voice_cloning ∧
    m ∉ (get_available_models (Except.ok all_models)).1.single_speaker := by
  constructor
  · simp only [get_available_models, classify_models, List.mem_filter]
    refine ⟨hmem, ?_⟩
    rcases hmark with h | h <;> simp [hns, h]
  · simp only [get_available_models, classify_models, List.mem_filter]
    intro hc
    rcases hmark with h | h <;> simp [hns, h] at hc

/-- C1, witness for the amended theorem at the real identifier
`"tts_models/multilingual/multi-dataset/xtts_v2"`. -/
theorem C1_marker_exclusivity_witness :
    "tts_models/multilingual/multi-dataset/xtts_v2" ∈
      (get_available_models
        (Except.ok ["tts_models/multilingual/multi-dataset/xtts_v2"])).1.voice_cloning ∧
    "tts_models/multilingual/multi-dataset/xtts_v2" ∉
      (get_available_models
        (Except.ok ["tts_models/multilingual/multi-dataset/xtts_v2"])).1.single_speaker :=
  C1_marker_exclusivity ["tts_models/multilingual/multi-dataset/xtts_v2"]
    "tts_models/multilingual/multi-dataset/xtts_v2" (by decide) (by decide)
    (Or.inr (by decide))

/-- C8: when the enumeration call raises, `get_available_models` returns
normally (no crash) with both lists empty and the single `st.error`
message surfaced. -/
theorem C8_enumeration_failure (e : String) :
    get_available_models (Except.error e) =
      ({ single_speaker := [], voice_cloning := [] },
       ["Error getting models: " ++ e]) := rfl

/-- C5: a second `load_tts_model` call with the same descriptor returns
the same value as the first, attempts no load, and leaves the cache
unchanged. -/
theorem C5_cache_hit (loader : String → Except String Nat)
    (cache : List (String × Option Nat)) (d : String) :
    (load_tts_model loader (load_tts_model loader cache d).2 d).1.result =
      (load_tts_model loader cache d).1.result ∧
    (load_tts_model loader (load_tts_model loader cache d).2 d).1.loadsAttempted = 0 ∧
    (load_tts_model loader (load_tts_model loader cache d).2 d).2 =
      (load_tts_model loader cache d).2 := by
  rw [load_tts_model_hit loader _ d _ (load_tts_model_cached loader cache d)]
  exact ⟨rfl, rfl, rfl⟩

/-- C3, counterexample: with a loader that raises, the first
`load_tts_model` call *does* create a cache entry (mapping the descriptor
to `None`), and the second call attempts no load — contradicting "no cache
entry is created … a subsequent call attempts the load again". -/
theorem C3_counterexample :
    (load_tts_model (fun _ => Except.error "boom") [] "m").2 = [("m", none)] ∧
    (load_tts_model (fun _ => Except.error "boom")
      (load_tts_model (fun _ => Except.error "boom") [] "m").2 "m").1.loadsAttempted
      = 0 := by
  exact ⟨rfl, rfl⟩

/-- C3, amended: a failed load is reported as a user-visible error and the
call returns `None`; but because the exception is caught *inside* the
`st.cache_resource`-decorated function, the `None` return value is cached:
the entry `(d, None)` is created and a subsequent call returns the cached
`None` without attempting the load again. -/
theorem C3_failure_cached (loader : String → Except String Nat)
    (cache : List (String × Option Nat)) (d e : String)
    (hmiss : cacheLookup cache d = none) (hfail : loader d = Except.error e) :
    (load_tts_model loader cache d).1.result = none ∧
    (load_tts_model loader cache d).1.errors = ["Error loading model: " ++ e] ∧
    (load_tts_model loader cache d).2 = (d, none) :: cache ∧
    (load_tts_model loader (load_tts_model loader cache d).2 d).1.loadsAttempted = 0 ∧
    (load_tts_model loader (load_tts_model loader cache d).2 d).1.result = none := by
  have h1 : load_tts_model loader cache d =
      ({ result := none, errors := ["Error loading model: " ++ e],
         loadsAttempted := 1 }, (d, none) :: cache) := by
    unfold load_tts_model
    rw [hmiss, hfail]
  rw [load_tts_model_hit loader _ d _ (load_tts_model_cached loader cache d), h1]
  exact ⟨rfl, rfl, rfl, rfl, rfl⟩

/-- C3, witness for the amended theorem with an always-failing loader. -/
theorem C3_failure_cached_witness :
    (load_tts_model (fun _ => Except.error "no weights") [] "m").1.result = none ∧
    (load_tts_model (fun _ => Except.error "no weights") [] "m").1.errors =
      ["Error loading model: " ++ "no weights"] ∧
    (load_tts_model (fun _ => Except.error "no weights") [] "m").2 =
      ("m", none) :: [] ∧
    (load_tts_model (fun _ => Except.error "no weights")
      (load_tts_model (fun _ => Except.error "no weights") [] "m").2 "m").1.loadsAttempted
      = 0 ∧
    (load_tts_model (fun _ => Except.error "no weights")
      (load_tts_model (fun _ => Except.error "no weights") [] "m").2 "m").1.result
      = none :=
  C3_failure_cached (fun _ => Except.error "no weights") [] "m" "no weights"
    rfl rfl

/-- C2, counterexample: cloning-mode click on `FS ⟨1, [0]⟩` (sample file
`0` on disk) with the library raising — the handler creates temp output
file `1` (absent before the call) and it is still on disk when the
handler returns: the failure path deletes nothing. -/
theorem C2_counterexample :
    ((cloneClick ⟨1, [0]⟩ (some 0) none "Male" "hi" "en"
        (Except.error "boom")).1).createdTemp = some 1 ∧
    (1 : Nat) ∉ ([0] : List Nat) ∧
    1 ∈ ((cloneClick ⟨1, [0]⟩ (some 0) none "Male" "hi" "en"
        (Except.error "boom")).2).files := by
  decide

/-- C2, amended: temp files are cleaned up on the success path only.  On
success the output temp file — and, in cloning mode, the selected
reference file — are gone when the handler returns; when the library call
raises, the caught `except` branch deletes nothing, so the output temp
file (and the reference file) remain on disk.  Stated for both handlers. -/
theorem C2_cleanup_success_only (fs : FS) (male fsp : Option Nat)
    (vt text lang : String) (bytes : List Nat) (e : String) (sp : Nat)
    (speakers : List String) (idx : String)
    (hsp : (if vt = "Male" then male else fsp) = some sp)
    (hon : sp ∈ fs.files) :
    (fs.next ∉ ((cloneClick fs male fsp vt text lang (Except.ok bytes)).2).files ∧
      sp ∉ ((cloneClick fs male fsp vt text lang (Except.ok bytes)).2).files) ∧
    (fs.next ∈ ((cloneClick fs male fsp vt text lang (Except.error e)).2).files ∧
      sp ∈ ((cloneClick fs male fsp vt text lang (Except.error e)).2).files) ∧
    fs.next ∉ ((pretrainedClick fs speakers idx text (Except.ok bytes)).2).files ∧
    fs.next ∈ ((pretrainedClick fs speakers idx text (Except.error e)).2).files := by
  refine ⟨⟨?_, ?_⟩, ⟨?_, ?_⟩, ?_, ?_⟩ <;>
    simp [cloneClick, pretrainedClick, hsp, mkTemp, unlink, List.mem_filter, hon]

/-- C2, witness for the amended theorem on `FS ⟨1, [0]⟩` with sample `0`. -/
theorem C2_cleanup_success_only_witness :
    ((1 : Nat) ∉ ((cloneClick ⟨1, [0]⟩ (some 0) none "Male" "hi" "en"
        (Except.ok [7])).2).files ∧
      (0 : Nat) ∉ ((cloneClick ⟨1, [0]⟩ (some 0) none "Male" "hi" "en"
        (Except.ok [7])).2).files) ∧
    ((1 : Nat) ∈ ((cloneClick ⟨1, [0]⟩ (some 0) none "Male" "hi" "en"
        (Except.error "boom")).2).files ∧
      (0 : Nat) ∈ ((cloneClick ⟨1, [0]⟩ (some 0) none "Male" "hi" "en"
        (Except.error "boom")).2).files) ∧
    (1 : Nat) ∉ ((pretrainedClick ⟨1, [0]⟩ [] "" "hi" (Except.ok [7])).2).files ∧
    (1 : Nat) ∈ ((pretrainedClick ⟨1, [0]⟩ [] "" "hi" (Except.error "boom")).2).files :=
  C2_cleanup_success_only ⟨1, [0]⟩ (some 0) none "Male" "hi" "en" [7] "boom" 0
    [] "" rfl (by decide)

/-- C4, counterexample: `"xx"` is outside the 14-code list, yet invoking
the cloning handler with it (sample present) is not rejected: a temp
output file is created and the library is called with `language="xx"` —
no validation happens before file I/O. -/
theorem C4_counterexample :
    "xx" ∉ languages ∧
    ((cloneClick ⟨1, [0]⟩ (some 0) none "Male" "hello" "xx"
        (Except.error "bad lang")).1).libCalled = true ∧
    ((cloneClick ⟨1, [0]⟩ (some 0) none "Male" "hello" "xx"
        (Except.error "bad lang")).1).createdTemp = some 1 ∧
    ((cloneClick ⟨1, [0]⟩ (some 0) none "Male" "hello" "xx"
        (Except.error "bad lang")).1).libLanguage = some "xx" := by
  decide

/-- C4, amended: the cloning handler performs no language validation at
all.  Whenever a reference sample is present for the selected voice type,
a temporary output file is created and the library is invoked with the
given language code unchanged — also for codes outside the 14-code list;
out-of-set codes are kept out only by the UI selector (claim C10). -/
theorem C4_no_language_validation (fs : FS) (male fsp : Option Nat)
    (vt text lang : String) (lib : Except String (List Nat)) (sp : Nat)
    (hsp : (if vt = "Male" then male else fsp) = some sp) :
    ((cloneClick fs male fsp vt text lang lib).1).libCalled = true ∧
    ((cloneClick fs male fsp vt text lang lib).1).libLanguage = some lang ∧
    ((cloneClick fs male fsp vt text lang lib).1).createdTemp = some fs.next := by
  cases lib <;> simp [cloneClick, hsp, mkTemp]

/-- C4, witness for the amended theorem at the out-of-set code `"xx"`. -/
theorem C4_no_language_validation_witness :
    ((cloneClick ⟨1, [0]⟩ (some 0) none "Male" "hello" "xx"
        (Except.ok [7])).1).libCalled = true ∧
    ((cloneClick ⟨1, [0]⟩ (some 0) none "Male" "hello" "xx"
        (Except.ok [7])).1).libLanguage = some "xx" ∧
    ((cloneClick ⟨1, [0]⟩ (some 0) none "Male" "hello" "xx"
        (Except.ok [7])).1).createdTemp = some (FS.next ⟨1, [0]⟩) :=
  C4_no_language_validation ⟨1, [0]⟩ (some 0) none "Male" "hello" "xx"
    (Except.ok [7]) 0 rfl

/-- C6: in cloning mode, when no sample is uploaded for the selected voice
type, the click shows exactly
`"Please upload a {male|female} voice sample first"`, the library is never
invoked, no temp file is created, and the filesystem is untouched. -/
theorem C6_missing_sample (fs : FS) (male fsp : Option Nat)
    (text lang vt : String) (lib : Except String (List Nat))
    (hvt : vt = "Male" ∨ vt = "Female")
    (hnone : (if vt = "Male" then male else fsp) = none) :
    ((cloneClick fs male fsp vt text lang lib).1).errors =
      [if vt = "Male" then "Please upload a male voice sample first"
       else "Please upload a female voice sample first"] ∧
    ((cloneClick fs male fsp vt text lang lib).1).libCalled = false ∧
    ((cloneClick fs male fsp vt text lang lib).1).createdTemp = none ∧
    (cloneClick fs male fsp vt text lang lib).2 = fs := by
  rcases hvt with h | h <;> subst h <;> simp_all [cloneClick] <;> rfl

/-- C6, witness: voice type "Male", nothing uploaded. -/
theorem C6_missing_sample_witness :
    ((cloneClick ⟨0, []⟩ none none "Male" "hi" "en"
        (Except.ok [7])).1).errors =
      [if "Male" = "Male" then "Please upload a male voice sample first"
       else "Please upload a female voice sample first"] ∧
    ((cloneClick ⟨0, []⟩ none none "Male" "hi" "en"
        (Except.ok [7])).1).libCalled = false ∧
    ((cloneClick ⟨0, []⟩ none none "Male" "hi" "en"
        (Except.ok [7])).1).createdTemp = none ∧
    (cloneClick ⟨0, []⟩ none none "Male" "hi" "en" (Except.ok [7])).2 = ⟨0, []⟩ :=
  C6_missing_sample ⟨0, []⟩ none none "hi" "en" "Male" (Except.ok [7])
    (Or.inl rfl) rfl

/-- C9, counterexample: a model exposing the non-empty speaker list
`[""]` (one speaker whose name is the empty string).  The probed list is
non-empty and `""` is the user-selected name, yet Python's truthiness test
`if speakers and speaker_idx` fails on the empty string, so the synthesis
call omits the speaker argument — the claim's "non-empty list ⇒ speaker
passed" is false. -/
theorem C9_counterexample :
    probeSpeakers (some [""]) ≠ [] ∧
    ((pretrainedClick ⟨0, []⟩ (probeSpeakers (some [""])) "" "hi"
        (Except.ok [7])).1).libSpeaker = none := by
  decide

/-- C9, amended: the pre-trained handler passes the speaker argument (as
the selected name) exactly when the probed speaker list is non-empty *and*
the selected name is a non-empty string; with no exposed speaker list the
probe yields `[]` and the speaker argument is omitted. -/
theorem C9_speaker_passthrough (fs : FS) (ms : Option (List String))
    (idx text : String) (lib : Except String (List Nat)) :
    ((pretrainedClick fs (probeSpeakers ms) idx text lib).1).libSpeaker =
      (if probeSpeakers ms ≠ [] ∧ idx ≠ "" then some idx else none) ∧
    probeSpeakers none = [] := by
  cases lib <;> simp [pretrainedClick, probeSpeakers]

/-- C10: every cloning-mode synthesis call the application can actually
make draws its language from the fixed selector: the language handed to
the library is the selected element of `languages` (or the library is not
called at all), and that element is a member of the 14-code list. -/
theorem C10_language_from_selector (i : Fin languages.length) (fs : FS)
    (male fsp : Option Nat) (vt text : String)
    (lib : Except String (List Nat)) :
    selectbox languages i ∈ languages ∧
    (((cloneClick fs male fsp vt text (selectbox languages i) lib).1).libLanguage
        = none ∨
      ((cloneClick fs male fsp vt text (selectbox languages i) lib).1).libLanguage
        = some (selectbox languages i)) := by
  refine ⟨List.get_mem _ _ _, ?_⟩
  cases h : (if vt = "Male" then male else fsp) with
  | none => exact Or.inl (by simp [cloneClick, h])
  | some sp => exact Or.inr (by cases lib <;> simp [cloneClick, h])

/-- Looking up the character that encodes a 6-bit group recovers the group. -/
theorem b64Index_b64Char : ∀ n < 64, b64Index (b64Char n) = some n := by decide

/-- No alphabet character is the padding character. -/
theorem b64Char_ne_pad : ∀ n < 64, b64Char n ≠ '=' := by decide

/-- Decoding inverts encoding, by induction on three-byte groups. -/
theorem base64_roundtrip_aux :
    ∀ (n : Nat) (bs : List Nat), bs.length ≤ n → (∀ x ∈ bs, x < 256) →
      base64Decode (base64Encode bs) = some bs := by
  intro n
  induction n with
  | zero =>
      intro bs hle hv
      have h0 : bs = [] := List.length_eq_zero.mp (Nat.le_zero.mp hle)
      subst h0
      rfl
  | succ n ih =>
      intro bs hle hv
      match bs with
      | [] => rfl
      | [a] =>
          have ha : a < 256 := hv a (by simp)
          have h1 : b64Index (b64Char (a / 4)) = some (a / 4) :=
            b64Index_b64Char _ (by omega)
          have h2 : b64Index (b64Char (a % 4 * 16)) = some (a % 4 * 16) :=
            b64Index_b64Char _ (by omega)
          simp [base64Encode, base64Decode, h1, h2]
          omega
      | [a, b] =>
          have ha : a < 256 := hv a (by simp)
          have hb : b < 256 := hv b (by simp)
          have h1 : b64Index (b64Char (a / 4)) = some (a / 4) :=
            b64Index_b64Char _ (by omega)
          have h2 : b64Index (b64Char (a % 4 * 16 + b / 16)) =
              some (a % 4 * 16 + b / 16) := b64Index_b64Char _ (by omega)
          have h3 : b64Index (b64Char (b % 16 * 4)) = some (b % 16 * 4) :=
            b64Index_b64Char _ (by omega)
          have n3 : b64Char (b % 16 * 4) ≠ '=' := b64Char_ne_pad _ (by omega)
          simp [base64Encode, base64Decode, h1, h2, h3, n3]
          omega
      | a :: b :: c :: rest =>
          have ha : a < 256 := hv a (by simp)
          have hb : b < 256 := hv b (by simp)
          have hc : c < 256 := hv c (by simp)
          have hrest : base64Decode (base64Encode rest) = some rest := by
            refine ih rest ?_ ?_
            · simp at hle
              omega
            · intro x hx
              exact hv x (by simp [hx])
          have h1 : b64Index (b64Char (a / 4)) = some (a / 4) :=
            b64Index_b64Char _ (by omega)
          have h2 : b64Index (b64Char (a % 4 * 16 + b / 16)) =
              some (a % 4 * 16 + b / 16) := b64Index_b64Char _ (by omega)
          have h3 : b64Index (b64Char (b % 16 * 4 + c / 64)) =
              some (b % 16 * 4 + c / 64) := b64Index_b64Char _ (by omega)
          have h4 : b64Index (b64Char (c % 64)) = some (c % 64) :=
            b64Index_b64Char _ (by omega)
          have n3 : b64Char (b % 16 * 4 + c / 64) ≠ '=' :=
            b64Char_ne_pad _ (by omega)
          have n4 : b64Char (c % 64) ≠ '=' := b64Char_ne_pad _ (by omega)
          simp [base64Encode, base64Decode, h1, h2, h3, h4, n3, n4, hrest]
          omega

/-- Base64 decoding is a left inverse of encoding on byte sequences. -/
theorem base64_roundtrip (bs : List Nat) (h : ∀ x ∈ bs, x < 256) :
    base64Decode (base64Encode bs) = some bs :=
  base64_roundtrip_aux bs.length bs (Nat.le_refl _) h

/-- C7: for every byte sequence `b` and filename `f`, the base64 string
embedded by the Transfer Layer decodes back to exactly `b`, and both the
inline-player markup of `autoplay_audio` and the download anchor of
`get_binary_file_downloader_html` embed that same untransformed encoding
of `b` (no resampling, no transcoding). -/
theorem C7_base64_roundtrip (b : List Nat) (f : String)
    (h : ∀ x ∈ b, x < 256) :
    base64Decode (base64Encode b) = some b ∧
    autoplay_audio b =
      "\n        <audio autoplay controls>\n        <source src=\"data:audio/wav;base64,"
        ++ String.mk (base64Encode b)
        ++ "\" type=\"audio/wav\">\n        </audio>\n    " ∧
    get_binary_file_downloader_html b f =
      downloader_custom_css ("download_button_" ++ f)
        ++ "<a href=\"data:application/octet-stream;base64,"
        ++ String.mk (base64Encode b)
        ++ "\" download=\"" ++ f ++ "\" id=\"" ++ ("download_button_" ++ f)
        ++ "\">Download " ++ f ++ "</a><br></br>" :=
  ⟨base64_roundtrip b h, rfl, rfl⟩

/-- C7, witness at the bytes `[82, 73, 70, 70]` ("RIFF", a WAV header
prefix) and the filename "x.wav". -/
theorem C7_base64_roundtrip_witness :
    base64Decode (base64Encode [82, 73, 70, 70]) = some [82, 73, 70, 70] ∧
    autoplay_audio [82, 73, 70, 70] =
      "\n        <audio autoplay controls>\n        <source src=\"data:audio/wav;base64,"
        ++ String.mk (base64Encode [82, 73, 70, 70])
        ++ "\" type=\"audio/wav\">\n        </audio>\n    " ∧
    get_binary_file_downloader_html [82, 73, 70, 70] "x.wav" =
      downloader_custom_css ("download_button_" ++ "x.wav")
        ++ "<a href=\"data:application/octet-stream;base64,"
        ++ String.mk (base64Encode [82, 73, 70, 70])
        ++ "\" download=\"" ++ "x.wav" ++ "\" id=\""
        ++ ("download_button_" ++ "x.wav")
        ++ "\">Download " ++ "x.wav" ++ "</a><br></br>" :=
  C7_base64_roundtrip [82, 73, 70, 70] "x.wav" (by decide)
